import Mathlib

/-!
# Verification of the enodebd ACS provisioning state machine

Shallow embedding of `lte/gateway/python/magma/enodebd/state_machines/enb_acs_states.py`
(magma). Python values flowing through the TR-069 handlers are modelled by the
inductive `Val`; the device/desired configuration stores and the data-model
facade (external collaborators of the file under verification) are modelled
from the spec's interface contracts; the pure reconciliation helpers
(`get_params_to_get`, `get_all_objects_to_delete`, ...), the response parser and
`build_desired_config` live outside the verified file and are abstracted as
fields of an environment record `Env`, so every theorem below holds for every
behaviour of those collaborators.

Raising an exception in Python is modelled by `Except`: the error value carries
the mutable context as it stands at the raise point, mirroring the fact that
mutations performed before a `raise` persist.
-/

namespace EnbAcs

/-- Symbolic parameter names (`ParameterName` in the magma data-model module). -/
abbrev ParamName := String

/-- Object (container parameter) names, e.g. `PLMN 1`. -/
abbrev ObjName := String

namespace ParameterName

def RF_TX_STATUS : ParamName := "RF TX status"
def OP_STATE : ParamName := "Opstate"
def GPS_STATUS : ParamName := "GPS status"
def PTP_STATUS : ParamName := "PTP status"
def MME_STATUS : ParamName := "MME status"
def GPS_LAT : ParamName := "GPS lat"
def GPS_LONG : ParamName := "GPS long"
def NUM_PLMNS : ParamName := "Number of PLMNs"

/-- Models `ParameterName.PLMN_N % i`: the name of the i-th numbered PLMN
object obtained by formatting the template with the instance index. -/
def PLMN_n (i : Nat) : ObjName := "PLMN " ++ toString i

end ParameterName

/-- A dynamic (Python) value as it flows through the handlers: the handlers
only ever see booleans, integers and strings. -/
inductive Val where
  | vBool (b : Bool)
  | vInt (n : Int)
  | vStr (s : String)
deriving DecidableEq, Repr

/-- Python `str(...)` on a `Val`. -/
def pyStr : Val → String
  | .vBool b => if b then "True" else "False"
  | .vInt n => toString n
  | .vStr s => s

/-- Python `int(...)` on a `Val`; `none` models the `ValueError`/`TypeError`
raised on a non-numeric string. -/
def pyInt : Val → Option Int
  | .vBool b => some (if b then 1 else 0)
  | .vInt n => some n
  | .vStr s => s.toInt?

/-- Update of an association list at a key (Python dict assignment: replace the
existing binding or append a new one). -/
def setAssoc {α β : Type} [DecidableEq α] : List (α × β) → α → β → List (α × β)
  | [], k, v => [(k, v)]
  | (k', v') :: rest, k, v =>
      if k' = k then (k', v) :: rest else (k', v') :: setAssoc rest k v

/-- Lookup in an association list (Python dict indexing / `in`). -/
def lookupA {α β : Type} [DecidableEq α] : List (α × β) → α → Option β
  | [], _ => none
  | (k', v) :: rest, k => if k' = k then some v else lookupA rest k

/-- Modelled from the spec: the device (or desired) configuration store —
"a mapping from parameter name → native value, plus a mapping from
(object instance, sub-parameter name) → native value", plus the set of known
object instances. -/
structure DeviceCfg where
  params : List (ParamName × Val)
  objects : List ObjName
  objParams : List ((ObjName × ParamName) × Val)
deriving DecidableEq, Repr

namespace DeviceCfg

/-- Modelled from the spec: `device_cfg.get_parameter`. -/
def getParameter (cfg : DeviceCfg) (n : ParamName) : Option Val :=
  lookupA cfg.params n

/-- Modelled from the spec: `device_cfg.has_parameter`. -/
def hasParameter (cfg : DeviceCfg) (n : ParamName) : Bool :=
  (cfg.getParameter n).isSome

/-- Modelled from the spec: `device_cfg.set_parameter`. -/
def setParameter (cfg : DeviceCfg) (n : ParamName) (v : Val) : DeviceCfg :=
  { cfg with params := setAssoc cfg.params n v }

/-- Modelled from the spec: `device_cfg.set_parameter_for_object`. -/
def setParameterForObject (cfg : DeviceCfg) (n : ParamName) (v : Val)
    (obj : ObjName) : DeviceCfg :=
  { cfg with objParams := setAssoc cfg.objParams (obj, n) v }

/-- Modelled from the spec: `device_cfg.add_object`. -/
def addObject (cfg : DeviceCfg) (obj : ObjName) : DeviceCfg :=
  { cfg with objects := cfg.objects ++ [obj] }

/-- Modelled from the spec: `device_cfg.delete_object`. -/
def deleteObject (cfg : DeviceCfg) (obj : ObjName) : DeviceCfg :=
  { cfg with objects := cfg.objects.filter (fun o => o ≠ obj),
             objParams := cfg.objParams.filter (fun p => p.1.1 ≠ obj) }

end DeviceCfg

/-- Modelled from the spec: the data-model facade. Presence flags are
three-valued ("known-present / known-absent / unknown"), here
`some true / some false / none`; paths, scalar type tags and the two
value-transform functions are per-parameter metadata; `numberedParamNames`
models `get_numbered_param_names()` and `optionalParams` the facade's fixed
list of optional parameters that `get_optional_param_to_check` draws from. -/
structure DataModel where
  presence : ParamName → Option Bool
  paramPath : ParamName → String
  paramType : ParamName → String
  transformForMagma : ParamName → Val → Val
  transformForEnb : ParamName → Val → Val
  numberedParamNames : List (ObjName × List ParamName)
  optionalParams : List ParamName

namespace DataModel

/-- Modelled from the spec: `data_model.is_parameter_present`. -/
def isParameterPresent (dm : DataModel) (n : ParamName) : Bool :=
  dm.presence n = some true

/-- Modelled from the spec: `data_model.set_parameter_presence`. -/
def setParameterPresence (dm : DataModel) (n : ParamName) (b : Bool) :
    DataModel :=
  { dm with presence := fun m => if m = n then some b else dm.presence m }

end DataModel

/-- One `SetParameterValuesFault` triple inside a `Fault` envelope. -/
structure SPVFault where
  parameterName : String
  faultCode : String
  faultString : String
deriving DecidableEq, Repr

/-- Inbound CWMP messages (the tagged variants of `models.*` that the read
handlers inspect). A `GetParameterValuesResponse` carries its
`ParameterList.ParameterValueStruct` entries as (Name, Value.Data) pairs; an
`Inform` carries its `Event.EventStruct` event codes. -/
inductive Msg where
  | inform (eventCodes : List String)
  | informResponse
  | dummyInput
  | getParameterValuesResponse (paramList : List (String × Val))
  | setParameterValuesResponse (status : Int)
  | addObjectResponse (status : Int) (instanceNumber : Int)
  | deleteObjectResponse (status : Int)
  | rebootResponse
  | fault (faultString : String) (spvFaults : Option (List SPVFault))
deriving DecidableEq, Repr

/-- One `ParameterValueStruct` in an outbound `SetParameterValues`. -/
structure WireEntry where
  name : String
  type : String
  data : String
deriving DecidableEq, Repr

/-- Outbound CWMP messages produced by the send handlers. -/
inductive OutMsg where
  | informResponse (maxEnvelopes : Int)
  | dummyInput
  | getParameterValues (arrayType : String) (strings : List String)
  | setParameterValues (arrayType : String) (entries : List WireEntry)
  | addObject (objectName : String)
  | deleteObject (objectName : String)
  | reboot (commandKey : String)
deriving DecidableEq, Repr

/-- Exceptions escaping a handler: `Tr069Error`, `ConfigurationError`
(base-class misuse), and the Python `KeyError` / `ValueError` that unguarded
dict lookups and `int(...)` conversions can raise. -/
inductive Err where
  | tr069 (msg : String)
  | configurationError (msg : String)
  | keyError (key : String)
  | valueError (msg : String)
deriving DecidableEq, Repr

/-- `AcsReadMsgResult`. -/
structure AcsReadMsgResult where
  msgHandled : Bool
  nextState : Option String
deriving DecidableEq, Repr

/-- `AcsMsgAndTransition`. -/
structure AcsMsgAndTransition where
  msg : OutMsg
  nextState : Option String
deriving DecidableEq, Repr

/-- The mutable per-machine context visible to the handlers: the two stores,
the data model (whose presence flags are mutable), and instrumentation
counters for the externally observable calls `stats_manager.clear_stats()`
and `build_desired_config(...)`. -/
structure AcsCtx where
  deviceCfg : DeviceCfg
  desiredCfg : Option DeviceCfg
  dataModel : DataModel
  clearStatsCalls : Nat
  buildDesiredCalls : Nat

/-- The external pure collaborators of the file under verification
(`acs_state_utils` helpers, the response parser, `process_inform_message` and
`build_desired_config`). They are outside the verified source; every theorem
quantifies over them. -/
structure Env where
  getParamsToGet : DeviceCfg → DataModel → List ParamName
  getObjectParamsToGet : Option DeviceCfg → DeviceCfg → DataModel → List ParamName
  getAllObjectsToDelete : Option DeviceCfg → DeviceCfg → List ObjName
  getAllObjectsToAdd : Option DeviceCfg → DeviceCfg → List ObjName
  getAllParamValuesToSet : Option DeviceCfg → DeviceCfg → DataModel → Bool → List (ParamName × Val)
  getParamValuesToSet : Option DeviceCfg → DeviceCfg → DataModel → List (ParamName × Val)
  getObjParamValuesToSet : Option DeviceCfg → DeviceCfg → DataModel → List (ObjName × List (ParamName × Val))
  getOptionalParamToCheck : DataModel → Option ParamName
  parseGetParameterValuesResponse : DataModel → List (String × Val) → List (ParamName × Val)
  processInformMessage : Msg → DataModel → DeviceCfg → DeviceCfg
  buildDesiredConfig : DeviceCfg → DataModel → DeviceCfg

/-- Result of a read handler: the raise path carries the context as mutated so
far. -/
abbrev ReadRet := Except (Err × AcsCtx) (AcsReadMsgResult × AcsCtx)

/-- Result of a send handler. No `get_msg` in the file mutates the context, so
only the message/transition pair is produced; errors carry no context. -/
abbrev GetRet := Except Err AcsMsgAndTransition

/-- The closed set of states of the machine, with the transition targets they
were constructed with and their per-visit mutable fields
(`optional_param`, `deleted_param`, `added_param`, `received_inform`). -/
inductive StateK where
  | disconnected (whenDone : String)
  | unexpectedInform (whenDone : String)
  | baicellsDisconnected (whenDone : String)
  | baicellsRemWait (whenDone : String)
  | waitEmptyMessage (whenDone : String)
  | checkOptionalParams (whenDone : String) (optionalParam : Option ParamName)
  | sendGetTransientParams (whenDone : String)
  | waitGetTransientParams (whenGet whenGetObjParams whenDelete whenAdd whenSet whenSkip : String)
  | getParams (whenDone : String)
  | waitGetParams (whenDone : String)
  | getObjectParams (whenDone : String)
  | waitGetObjectParams (whenDelete whenAdd whenSet whenSkip : String)
  | deleteObjects (whenAdd whenSkip : String) (deletedParam : Option ObjName)
  | addObjects (whenDone : String) (addedParam : Option ObjName)
  | setParameterValues (whenDone : String)
  | setParameterValuesNotAdmin (whenDone : String)
  | waitSetParameterValues (whenDone : String)
  | sendReboot (whenDone : String)
  | waitRebootResponse (whenDone : String)
  | waitInformMReboot (whenDone whenTimeout : String) (receivedInform : Bool)
  | waitRebootDelay (whenDone : String)
  | errorState
deriving DecidableEq, Repr

namespace DisconnectedState

/-- `DisconnectedState.read_msg`: only an `Inform` is handled; its contents are
processed into the device store. -/
def readMsg (env : Env) (ctx : AcsCtx) (m : Msg) : ReadRet :=
  match m with
  | .inform ev =>
      .ok (⟨true, none⟩,
           { ctx with deviceCfg :=
               env.processInformMessage (.inform ev) ctx.dataModel ctx.deviceCfg })
  | _ => .ok (⟨false, none⟩, ctx)

/-- `DisconnectedState.get_msg`: reply `InformResponse` with `MaxEnvelopes = 1`
and transition to the configured target. -/
def getMsg (whenDone : String) : GetRet :=
  .ok ⟨.informResponse 1, some whenDone⟩

end DisconnectedState

namespace UnexpectedInformState

/-- `UnexpectedInformState.read_msg` (textually identical to
`DisconnectedState.read_msg` in the source). -/
def readMsg (env : Env) (ctx : AcsCtx) (m : Msg) : ReadRet :=
  match m with
  | .inform ev =>
      .ok (⟨true, none⟩,
           { ctx with deviceCfg :=
               env.processInformMessage (.inform ev) ctx.dataModel ctx.deviceCfg })
  | _ => .ok (⟨false, none⟩, ctx)

/-- `UnexpectedInformState.get_msg`. -/
def getMsg (whenDone : String) : GetRet :=
  .ok ⟨.informResponse 1, some whenDone⟩

end UnexpectedInformState

namespace BaicellsDisconnectedState

/-- `BaicellsDisconnectedState.read_msg` (textually identical to
`DisconnectedState.read_msg` in the source). -/
def readMsg (env : Env) (ctx : AcsCtx) (m : Msg) : ReadRet :=
  match m with
  | .inform ev =>
      .ok (⟨true, none⟩,
           { ctx with deviceCfg :=
               env.processInformMessage (.inform ev) ctx.dataModel ctx.deviceCfg })
  | _ => .ok (⟨false, none⟩, ctx)

/-- `BaicellsDisconnectedState.get_msg`. -/
def getMsg (whenDone : String) : GetRet :=
  .ok ⟨.informResponse 1, some whenDone⟩

end BaicellsDisconnectedState

namespace BaicellsRemWaitState

/-- `BaicellsRemWaitState.read_msg`: silently consume anything. -/
def readMsg (ctx : AcsCtx) (_ : Msg) : ReadRet :=
  .ok (⟨true, none⟩, ctx)

/-- `BaicellsRemWaitState.get_msg`: `DummyInput`, no transition. -/
def getMsg : GetRet :=
  .ok ⟨.dummyInput, none⟩

end BaicellsRemWaitState

namespace WaitEmptyMessageState

/-- `WaitEmptyMessageState.read_msg`: a `DummyInput` advances to the configured
target; anything else is not handled. -/
def readMsg (whenDone : String) (ctx : AcsCtx) (m : Msg) : ReadRet :=
  match m with
  | .dummyInput => .ok (⟨true, some whenDone⟩, ctx)
  | _ => .ok (⟨false, none⟩, ctx)

end WaitEmptyMessageState

namespace CheckOptionalParamsState

/-- `CheckOptionalParamsState.get_msg`: pick the next unknown-presence
parameter (raising `Tr069Error('Invalid State')` when there is none) and emit a
single-element `GetParameterValues` for its path. Returns the new value of the
`optional_param` field alongside. -/
def getMsg (env : Env) (ctx : AcsCtx) :
    Except (Err × Option ParamName) (AcsMsgAndTransition × Option ParamName) :=
  match env.getOptionalParamToCheck ctx.dataModel with
  | none => .error (.tr069 "Invalid State", none)
  | some p =>
      .ok (⟨.getParameterValues "xsd:string[1]" [ctx.dataModel.paramPath p],
            none⟩, some p)

/-- The response loop body of `CheckOptionalParamsState.read_msg`: for each
parsed (name, value), mark the optional parameter present and store the
magma-transformed value. The data model is threaded because
`set_parameter_presence` mutates it. -/
def respLoop (p : ParamName) :
    List (ParamName × Val) → DataModel → DeviceCfg → DataModel × DeviceCfg
  | [], dm, cfg => (dm, cfg)
  | (name, val) :: rest, dm, cfg =>
      let dm' := dm.setParameterPresence p true
      let magmaVal := dm'.transformForMagma name val
      respLoop p rest dm' (cfg.setParameter name magmaVal)

/-- `CheckOptionalParamsState.read_msg`. A `Fault` marks the current optional
parameter absent; a `GetParameterValuesResponse` marks it present and stores
the values; any other message is not handled. Afterwards self-loop while
another unknown-presence parameter remains, else transition. The facade call
`set_parameter_presence(None, ...)` (possible only if `read_msg` ran before
any `get_msg`) is modelled as the `KeyError` an unknown key raises. -/
def readMsg (env : Env) (whenDone : String) (optionalParam : Option ParamName)
    (ctx : AcsCtx) (m : Msg) : ReadRet :=
  match m with
  | .fault _ _ =>
      match optionalParam with
      | none => .error (.keyError "None", ctx)
      | some p =>
          let ctx' := { ctx with
            dataModel := ctx.dataModel.setParameterPresence p false }
          if (env.getOptionalParamToCheck ctx'.dataModel).isSome then
            .ok (⟨true, none⟩, ctx')
          else
            .ok (⟨true, some whenDone⟩, ctx')
  | .getParameterValuesResponse wire =>
      match optionalParam with
      | none => .error (.keyError "None", ctx)
      | some p =>
          let nameToVal :=
            env.parseGetParameterValuesResponse ctx.dataModel wire
          let dmCfg := respLoop p nameToVal ctx.dataModel ctx.deviceCfg
          let ctx' := { ctx with dataModel := dmCfg.1, deviceCfg := dmCfg.2 }
          if (env.getOptionalParamToCheck ctx'.dataModel).isSome then
            .ok (⟨true, none⟩, ctx')
          else
            .ok (⟨true, some whenDone⟩, ctx')
  | _ => .ok (⟨false, none⟩, ctx)

end CheckOptionalParamsState

namespace SendGetTransientParametersState

/-- The fixed `PARAMETERS` list of status parameters. -/
def PARAMETERS : List ParamName :=
  [ParameterName.OP_STATE,
   ParameterName.RF_TX_STATUS,
   ParameterName.GPS_STATUS,
   ParameterName.PTP_STATUS,
   ParameterName.MME_STATUS,
   ParameterName.GPS_LAT,
   ParameterName.GPS_LONG]

/-- `SendGetTransientParametersState.read_msg`: only `DummyInput` is handled. -/
def readMsg (ctx : AcsCtx) (m : Msg) : ReadRet :=
  match m with
  | .dummyInput => .ok (⟨true, none⟩, ctx)
  | _ => .ok (⟨false, none⟩, ctx)

/-- `SendGetTransientParametersState.get_msg`: request the paths of those
`PARAMETERS` present in this device's data model (the `arrayType` count is
written from the full list, as in the source), and transition unconditionally. -/
def getMsg (whenDone : String) (ctx : AcsCtx) : GetRet :=
  .ok ⟨.getParameterValues
         ("xsd:string[" ++ toString PARAMETERS.length ++ "]")
         ((PARAMETERS.filter
            (fun n => ctx.dataModel.isParameterPresent n)).map
            (fun n => ctx.dataModel.paramPath n)),
       some whenDone⟩

end SendGetTransientParametersState

namespace WaitGetTransientParametersState

/-- `WaitGetTransientParametersState.get_next_state`: the first-match priority
ladder over the reconciliation helpers. -/
def getNextState (env : Env)
    (whenGet whenGetObjParams whenDelete whenAdd whenSkip : String)
    (ctx : AcsCtx) : String :=
  if (env.getParamsToGet ctx.deviceCfg ctx.dataModel).length > 0 then
    whenGet
  else if (env.getObjectParamsToGet ctx.desiredCfg ctx.deviceCfg
            ctx.dataModel).length > 0 then
    whenGetObjParams
  else if (env.getAllObjectsToDelete ctx.desiredCfg
            ctx.deviceCfg).length > 0 then
    whenDelete
  else if (env.getAllObjectsToAdd ctx.desiredCfg ctx.deviceCfg).length > 0 then
    whenAdd
  else
    whenSkip

/-- The update loop of `WaitGetTransientParametersState.read_msg`: store every
parsed value, magma-transformed, into the device store. -/
def updateLoop (dm : DataModel) :
    List (ParamName × Val) → DeviceCfg → DeviceCfg
  | [], cfg => cfg
  | (name, val) :: rest, cfg =>
      updateLoop dm rest (cfg.setParameter name (dm.transformForMagma name val))

/-- `WaitGetTransientParametersState.read_msg`. Parses the response; computes
the radio-stop edge (previous stored `RF_TX_STATUS`, defaulting to `False`,
identically `True` while the new value is identically `False`) and calls
`clear_stats()` exactly on that edge; the lookup
`name_to_val[ParameterName.RF_TX_STATUS]` is unguarded and raises `KeyError`
when the parse result lacks that name. Then updates the device store and picks
the next state from the ladder. -/
def readMsg (env : Env)
    (whenGet whenGetObjParams whenDelete whenAdd whenSkip : String)
    (ctx : AcsCtx) (m : Msg) : ReadRet :=
  match m with
  | .getParameterValuesResponse wire =>
      let nameToVal := env.parseGetParameterValuesResponse ctx.dataModel wire
      let prevRfTx : Val :=
        if ctx.deviceCfg.hasParameter ParameterName.RF_TX_STATUS then
          (ctx.deviceCfg.getParameter ParameterName.RF_TX_STATUS).getD
            (.vBool false)
        else
          .vBool false
      match lookupA nameToVal ParameterName.RF_TX_STATUS with
      | none => .error (.keyError ParameterName.RF_TX_STATUS, ctx)
      | some nextRfTx =>
          let ctx₁ :=
            if prevRfTx = Val.vBool true ∧ nextRfTx = Val.vBool false then
              { ctx with clearStatsCalls := ctx.clearStatsCalls + 1 }
            else
              ctx
          let ctx₂ := { ctx₁ with
            deviceCfg := updateLoop ctx₁.dataModel nameToVal ctx₁.deviceCfg }
          .ok (⟨true, some (getNextState env whenGet whenGetObjParams
                              whenDelete whenAdd whenSkip ctx₂)⟩, ctx₂)
  | _ => .ok (⟨false, none⟩, ctx)

end WaitGetTransientParametersState

namespace GetParametersState

/-- `GetParametersState.read_msg`: only `DummyInput` is handled. -/
def readMsg (ctx : AcsCtx) (m : Msg) : ReadRet :=
  match m with
  | .dummyInput => .ok (⟨true, none⟩, ctx)
  | _ => .ok (⟨false, none⟩, ctx)

/-- `GetParametersState.get_msg`: request all params-to-get. -/
def getMsg (env : Env) (whenDone : String) (ctx : AcsCtx) : GetRet :=
  let names := env.getParamsToGet ctx.deviceCfg ctx.dataModel
  .ok ⟨.getParameterValues
         ("xsd:string[" ++ toString names.length ++ "]")
         (names.map (fun n => ctx.dataModel.paramPath n)),
       some whenDone⟩

end GetParametersState

namespace WaitGetParametersState

/-- `WaitGetParametersState.read_msg`: store every parsed value
(magma-transformed) and transition; non-responses are not handled. -/
def readMsg (env : Env) (whenDone : String) (ctx : AcsCtx) (m : Msg) : ReadRet :=
  match m with
  | .getParameterValuesResponse wire =>
      let nameToVal := env.parseGetParameterValuesResponse ctx.dataModel wire
      .ok (⟨true, some whenDone⟩,
           { ctx with deviceCfg :=
               (WaitGetTransientParametersState.updateLoop ctx.dataModel
                 nameToVal ctx.deviceCfg) })
  | _ => .ok (⟨false, none⟩, ctx)

end WaitGetParametersState

namespace GetObjectParametersState

/-- `GetObjectParametersState.get_msg`: request all object params-to-get. -/
def getMsg (env : Env) (whenDone : String) (ctx : AcsCtx) : GetRet :=
  let names := env.getObjectParamsToGet ctx.desiredCfg ctx.deviceCfg
                 ctx.dataModel
  .ok ⟨.getParameterValues
         ("xsd:string[" ++ toString names.length ++ "]")
         (names.map (fun n => ctx.dataModel.paramPath n)),
       some whenDone⟩

end GetObjectParametersState

namespace WaitGetObjectParametersState

/-- Inner loop over one PLMN object's sub-parameter names: each path is looked
up in the response dict (`KeyError` on a miss, with the device store as
mutated so far) and the transformed value stored under the object. -/
def objLoop (dm : DataModel) (pathToVal : List (String × Val)) (objName : ObjName) :
    List ParamName → DeviceCfg → Except (Err × DeviceCfg) DeviceCfg
  | [], cfg => .ok cfg
  | name :: rest, cfg =>
      match lookupA pathToVal (dm.paramPath name) with
      | none => .error (.keyError (dm.paramPath name), cfg)
      | some value =>
          objLoop dm pathToVal objName rest
            (cfg.setParameterForObject name (dm.transformForMagma name value)
              objName)

/-- Outer loop of `WaitGetObjectParametersState.read_msg` over object indices
`1 .. num_plmns`; `obj_to_params[obj_name]` is an unguarded dict lookup. -/
def plmnLoop (dm : DataModel) (pathToVal : List (String × Val)) :
    List Nat → DeviceCfg → Except (Err × DeviceCfg) DeviceCfg
  | [], cfg => .ok cfg
  | i :: rest, cfg =>
      let objName := ParameterName.PLMN_n i
      match lookupA dm.numberedParamNames objName with
      | none => .error (.keyError objName, cfg)
      | some paramNameList =>
          match objLoop dm pathToVal objName paramNameList cfg with
          | .error e => .error e
          | .ok cfg' => plmnLoop dm pathToVal rest cfg'

/-- The indices `range(1, num_plmns + 1)` (empty when `num_plmns ≤ 0`). -/
def plmnIndices (numPlmns : Int) : List Nat :=
  (List.range numPlmns.toNat).map (fun i => i + 1)

/-- `WaitGetObjectParametersState.read_msg`. Indexes the response by path
(dict semantics: a later duplicate overwrites), writes each expected PLMN
sub-parameter into the device store, builds the desired configuration if and
only if it is not yet built, then selects the next state by the
delete → add → set → skip ladder. The `NUM_PLMNS` read and the `int(...)`
conversion are unguarded. -/
def readMsg (env : Env) (whenDelete whenAdd whenSet whenSkip : String)
    (ctx : AcsCtx) (m : Msg) : ReadRet :=
  match m with
  | .getParameterValuesResponse wire =>
      let pathToVal :=
        wire.foldl (fun d p => setAssoc d p.1 p.2) []
      match ctx.deviceCfg.getParameter ParameterName.NUM_PLMNS with
      | none => .error (.keyError ParameterName.NUM_PLMNS, ctx)
      | some rawNum =>
          match pyInt rawNum with
          | none => .error (.valueError (pyStr rawNum), ctx)
          | some numPlmns =>
              match plmnLoop ctx.dataModel pathToVal (plmnIndices numPlmns)
                      ctx.deviceCfg with
              | .error (e, cfg') =>
                  .error (e, { ctx with deviceCfg := cfg' })
              | .ok cfg' =>
                  let ctx₁ :=
                    match ctx.desiredCfg with
                    | none =>
                        { ctx with
                          deviceCfg := cfg',
                          desiredCfg :=
                            some (env.buildDesiredConfig cfg' ctx.dataModel),
                          buildDesiredCalls := ctx.buildDesiredCalls + 1 }
                    | some _ => { ctx with deviceCfg := cfg' }
                  if (env.getAllObjectsToDelete ctx₁.desiredCfg
                        ctx₁.deviceCfg).length > 0 then
                    .ok (⟨true, some whenDelete⟩, ctx₁)
                  else if (env.getAllObjectsToAdd ctx₁.desiredCfg
                            ctx₁.deviceCfg).length > 0 then
                    .ok (⟨true, some whenAdd⟩, ctx₁)
                  else if (env.getAllParamValuesToSet ctx₁.desiredCfg
                            ctx₁.deviceCfg ctx₁.dataModel false).length > 0 then
                    .ok (⟨true, some whenSet⟩, ctx₁)
                  else
                    .ok (⟨true, some whenSkip⟩, ctx₁)
  | _ => .ok (⟨false, none⟩, ctx)

end WaitGetObjectParametersState

/-- Models Python `template % n` for the single-placeholder object-name
templates handed out by `get_all_objects_to_add`. -/
def formatTemplate (template : String) (n : Int) : String :=
  template.replace "%d" (toString n)

namespace DeleteObjectsState

/-- `DeleteObjectsState.get_msg`: emit `DeleteObject` for the head of the
to-delete list (stashing it in `deleted_param`). The `[0]` index raises on an
empty list (Python `IndexError`, modelled as `KeyError "0"`). -/
def getMsg (env : Env) (ctx : AcsCtx) :
    Except Err (AcsMsgAndTransition × Option ObjName) :=
  match env.getAllObjectsToDelete ctx.desiredCfg ctx.deviceCfg with
  | [] => .error (.keyError "0")
  | obj :: _ =>
      .ok (⟨.deleteObject (ctx.dataModel.paramPath obj), none⟩, some obj)

/-- `DeleteObjectsState.read_msg`: nonzero-status response or `Fault` is fatal;
on success delete the stashed object from the device store and self-loop while
more deletions remain, else pick skip/add. -/
def readMsg (env : Env) (whenAdd whenSkip : String)
    (deletedParam : Option ObjName) (ctx : AcsCtx) (m : Msg) : ReadRet :=
  match m with
  | .deleteObjectResponse status =>
      if status ≠ 0 then
        .error (.tr069 ("Received DeleteObjectResponse with Status=" ++
                  toString status), ctx)
      else
        match deletedParam with
        | none => .error (.keyError "None", ctx)
        | some obj =>
            let ctx' := { ctx with deviceCfg := ctx.deviceCfg.deleteObject obj }
            if (env.getAllObjectsToDelete ctx'.desiredCfg
                  ctx'.deviceCfg).length > 0 then
              .ok (⟨true, none⟩, ctx')
            else if (env.getAllObjectsToAdd ctx'.desiredCfg
                      ctx'.deviceCfg).length = 0 then
              .ok (⟨true, some whenSkip⟩, ctx')
            else
              .ok (⟨true, some whenAdd⟩, ctx')
  | .fault fs _ =>
      .error (.tr069 ("Received Fault in response to DeleteObject " ++
                "(faultstring = " ++ fs ++ ")"), ctx)
  | _ => .ok (⟨false, none⟩, ctx)

end DeleteObjectsState

namespace AddObjectsState

/-- `AddObjectsState.get_msg`: emit `AddObject` for the head of the to-add
list (stashing it in `added_param`). -/
def getMsg (env : Env) (ctx : AcsCtx) :
    Except Err (AcsMsgAndTransition × Option ObjName) :=
  match env.getAllObjectsToAdd ctx.desiredCfg ctx.deviceCfg with
  | [] => .error (.keyError "0")
  | obj :: _ =>
      .ok (⟨.addObject (ctx.dataModel.paramPath obj), none⟩, some obj)

/-- `AddObjectsState.read_msg`: nonzero-status response or `Fault` is fatal;
on success record the instance (template formatted with `InstanceNumber`) in
the device store and self-loop while more additions remain. -/
def readMsg (env : Env) (whenDone : String) (addedParam : Option ObjName)
    (ctx : AcsCtx) (m : Msg) : ReadRet :=
  match m with
  | .addObjectResponse status instanceNumber =>
      if status ≠ 0 then
        .error (.tr069 ("Received AddObjectResponse with Status=" ++
                  toString status), ctx)
      else
        match addedParam with
        | none => .error (.keyError "None", ctx)
        | some obj =>
            let ctx' := { ctx with deviceCfg :=
              ctx.deviceCfg.addObject (formatTemplate obj instanceNumber) }
            if (env.getAllObjectsToAdd ctx'.desiredCfg
                  ctx'.deviceCfg).length > 0 then
              .ok (⟨true, none⟩, ctx')
            else
              .ok (⟨true, some whenDone⟩, ctx')
  | .fault fs _ =>
      .error (.tr069 ("Received Fault in response to AddObject " ++
                "(faultstring = " ++ fs ++ ")"), ctx)
  | _ => .ok (⟨false, none⟩, ctx)

end AddObjectsState

namespace SetParameterValuesState

/-- The loop body of `SetParameterValuesState.get_msg` for one (name, value)
pair: map the data-model type tag to the wire type and wire data (int and
unsignedInt via `str(...)`, boolean via `str(int(...))`, string via
`str(...)`); any other tag raises `Tr069Error`. -/
def wireEntryOf (dm : DataModel) (name : ParamName) (value : Val) :
    Except Err WireEntry :=
  let type_ := dm.paramType name
  let enbValue := dm.transformForEnb name value
  if type_ = "int" ∨ type_ = "unsignedInt" then
    .ok ⟨dm.paramPath name, "xsd:" ++ type_, pyStr enbValue⟩
  else if type_ = "boolean" then
    match pyInt enbValue with
    | none => .error (.valueError (pyStr enbValue))
    | some k => .ok ⟨dm.paramPath name, "xsd:boolean", toString k⟩
  else if type_ = "string" then
    .ok ⟨dm.paramPath name, "xsd:string", pyStr enbValue⟩
  else
    .error (.tr069 ("Unsupported type for " ++ name ++ ": " ++ type_))

/-- The request-building loop over all parameter values to set. -/
def entriesOf (dm : DataModel) :
    List (ParamName × Val) → Except Err (List WireEntry)
  | [] => .ok []
  | (name, value) :: rest =>
      match wireEntryOf dm name value with
      | .error e => .error e
      | .ok entry =>
          match entriesOf dm rest with
          | .error e => .error e
          | .ok entries => .ok (entry :: entries)

/-- `SetParameterValuesState.get_msg`: one `SetParameterValues` containing
every parameter that differs from desired, transitioning unconditionally to
the wait state. -/
def getMsg (env : Env) (whenDone : String) (ctx : AcsCtx) : GetRet :=
  let paramValues := env.getAllParamValuesToSet ctx.desiredCfg ctx.deviceCfg
                       ctx.dataModel false
  match entriesOf ctx.dataModel paramValues with
  | .error e => .error e
  | .ok entries =>
      .ok ⟨.setParameterValues
             ("cwmp:ParameterValueStruct[" ++
               toString paramValues.length ++ "]")
             entries,
           some whenDone⟩

end SetParameterValuesState

namespace SetParameterValuesNotAdminState

/-- `SetParameterValuesNotAdminState.get_msg`: identical to
`SetParameterValuesState.get_msg` except that the helper is called with
`exclude_admin=True`. -/
def getMsg (env : Env) (whenDone : String) (ctx : AcsCtx) : GetRet :=
  let paramValues := env.getAllParamValuesToSet ctx.desiredCfg ctx.deviceCfg
                       ctx.dataModel true
  match SetParameterValuesState.entriesOf ctx.dataModel paramValues with
  | .error e => .error e
  | .ok entries =>
      .ok ⟨.setParameterValues
             ("cwmp:ParameterValueStruct[" ++
               toString paramValues.length ++ "]")
             entries,
           some whenDone⟩

end SetParameterValuesNotAdminState

namespace WaitSetParameterValuesState

/-- The scalar half of `_mark_as_configured`: write each value the set
attempted (magma-transformed) into the device store. -/
def markScalars (dm : DataModel) :
    List (ParamName × Val) → DeviceCfg → DeviceCfg
  | [], cfg => cfg
  | (name, val) :: rest, cfg =>
      markScalars dm rest (cfg.setParameter name (dm.transformForMagma name val))

/-- The object half of `_mark_as_configured`: write each attempted object
sub-parameter value (magma-transformed) under its object. -/
def markObjs (dm : DataModel) :
    List (ObjName × List (ParamName × Val)) → DeviceCfg → DeviceCfg
  | [], cfg => cfg
  | (objName, nameToVal) :: rest, cfg =>
      markObjs dm rest
        (nameToVal.foldl
          (fun c p =>
            c.setParameterForObject p.1 (dm.transformForMagma p.1 p.2) objName)
          cfg)

/-- `WaitSetParameterValuesState._mark_as_configured`. -/
def markAsConfigured (env : Env) (ctx : AcsCtx) : AcsCtx :=
  let nameToVal := env.getParamValuesToSet ctx.desiredCfg ctx.deviceCfg
                     ctx.dataModel
  let cfg₁ := markScalars ctx.dataModel nameToVal ctx.deviceCfg
  let objToNameToVal := env.getObjParamValuesToSet ctx.desiredCfg ctx.deviceCfg
                          ctx.dataModel
  { ctx with deviceCfg := markObjs ctx.dataModel objToNameToVal cfg₁ }

/-- `WaitSetParameterValuesState.read_msg`: a zero-status
`SetParameterValuesResponse` mirrors the attempted values into the device
store and transitions; a nonzero status or a `Fault` raises `Tr069Error`
before any mutation; anything else is not handled. -/
def readMsg (env : Env) (whenDone : String) (ctx : AcsCtx) (m : Msg) : ReadRet :=
  match m with
  | .setParameterValuesResponse status =>
      if status ≠ 0 then
        .error (.tr069 ("Received SetParameterValuesResponse with Status=" ++
                  toString status), ctx)
      else
        .ok (⟨true, some whenDone⟩, markAsConfigured env ctx)
  | .fault fs _ =>
      .error (.tr069 ("Received Fault in response to SetParameterValues " ++
                "(faultstring = " ++ fs ++ ")"), ctx)
  | _ => .ok (⟨false, none⟩, ctx)

end WaitSetParameterValuesState

namespace SendRebootState

/-- `SendRebootState.read_msg`: every message is consumed. -/
def readMsg (ctx : AcsCtx) (_ : Msg) : ReadRet :=
  .ok (⟨true, none⟩, ctx)

/-- `SendRebootState.get_msg`: `Reboot` with empty `CommandKey`. -/
def getMsg (whenDone : String) : GetRet :=
  .ok ⟨.reboot "", some whenDone⟩

end SendRebootState

namespace WaitRebootResponseState

/-- `WaitRebootResponseState.read_msg`. -/
def readMsg (whenDone : String) (ctx : AcsCtx) (m : Msg) : ReadRet :=
  match m with
  | .rebootResponse => .ok (⟨true, some whenDone⟩, ctx)
  | .fault fs _ =>
      .error (.tr069 ("Received Fault in response to Reboot " ++
                "(faultstring = " ++ fs ++ ")"), ctx)
  | _ => .ok (⟨false, none⟩, ctx)

/-- `WaitRebootResponseState.get_msg`. -/
def getMsg (whenDone : String) : GetRet :=
  .ok ⟨.dummyInput, some whenDone⟩

end WaitRebootResponseState

namespace WaitInformMRebootState

/-- The expected inform event code. -/
def INFORM_EVENT_CODE : String := "M Reboot"

/-- `WaitInformMRebootState.read_msg`. Returns the new value of the
`received_inform` field alongside. An `Inform` without an `M Reboot` event
code raises; one with it records the inform and re-processes its contents; a
`Fault` is consumed without touching `received_inform`; others are
not handled. -/
def readMsg (env : Env) (receivedInform : Bool) (ctx : AcsCtx) (m : Msg) :
    Except (Err × Bool × AcsCtx) (AcsReadMsgResult × Bool × AcsCtx) :=
  match m with
  | .inform eventCodes =>
      let isCorrectEvent := eventCodes.any (fun e => e = INFORM_EVENT_CODE)
      if ¬ isCorrectEvent then
        .error (.tr069 "Did not receive M Reboot event code in Inform",
                receivedInform, ctx)
      else
        .ok (⟨true, none⟩, true,
             { ctx with deviceCfg :=
                 (env.processInformMessage (.inform eventCodes) ctx.dataModel
                   ctx.deviceCfg) })
  | .fault _ _ => .ok (⟨true, none⟩, receivedInform, ctx)
  | _ => .ok (⟨false, none⟩, receivedInform, ctx)

/-- `WaitInformMRebootState.get_msg`: once the inform has been received, reply
`InformResponse{MaxEnvelopes=1}` and transition; otherwise `DummyInput` with no
transition. -/
def getMsg (whenDone : String) (receivedInform : Bool) : GetRet :=
  if receivedInform then
    .ok ⟨.informResponse 1, some whenDone⟩
  else
    .ok ⟨.dummyInput, none⟩

end WaitInformMRebootState

namespace WaitRebootDelayState

/-- `WaitRebootDelayState.read_msg`: silently consume anything. -/
def readMsg (ctx : AcsCtx) (_ : Msg) : ReadRet :=
  .ok (⟨true, none⟩, ctx)

/-- `WaitRebootDelayState.get_msg`. -/
def getMsg : GetRet :=
  .ok ⟨.dummyInput, none⟩

end WaitRebootDelayState

namespace ErrorState

/-- `ErrorState.read_msg`: absorbing sink. -/
def readMsg (ctx : AcsCtx) (_ : Msg) : ReadRet :=
  .ok (⟨true, none⟩, ctx)

/-- `ErrorState.get_msg`. -/
def getMsg : GetRet :=
  .ok ⟨.dummyInput, none⟩

end ErrorState

/-- Result of dispatching a read to the current state: the (possibly
field-updated) state object comes along on both paths. -/
abbrev DispatchReadRet :=
  Except (Err × StateK × AcsCtx) (AcsReadMsgResult × StateK × AcsCtx)

/-- Re-attach the (unchanged) state object to a per-state read result. -/
def liftRead (st : StateK) : ReadRet → DispatchReadRet
  | .ok (r, ctx) => .ok (r, st, ctx)
  | .error (e, ctx) => .error (e, st, ctx)

/-- Re-attach the state object, with its updated `received_inform` field, to a
`WaitInformMRebootState` read result. -/
def liftReadMR (w1 w2 : String) :
    Except (Err × Bool × AcsCtx) (AcsReadMsgResult × Bool × AcsCtx) →
      DispatchReadRet
  | .ok (r, ri, ctx) => .ok (r, .waitInformMReboot w1 w2 ri, ctx)
  | .error (e, ri, ctx) => .error (e, .waitInformMReboot w1 w2 ri, ctx)

/-- The base-class `EnodebAcsState.read_msg`, raised by states that do not
override message reading. -/
def baseReadMsg (className : String) (st : StateK) (ctx : AcsCtx) :
    DispatchReadRet :=
  .error (.configurationError
            (className ++ " should implement read_msg() if it needs to " ++
              "handle message reading"), st, ctx)

/-- Dispatch an inbound message to the current state's `read_msg`. -/
def readMsg (env : Env) (st : StateK) (ctx : AcsCtx) (m : Msg) :
    DispatchReadRet :=
  match st with
  | .disconnected w => liftRead (.disconnected w)
      (DisconnectedState.readMsg env ctx m)
  | .unexpectedInform w => liftRead (.unexpectedInform w)
      (UnexpectedInformState.readMsg env ctx m)
  | .baicellsDisconnected w => liftRead (.baicellsDisconnected w)
      (BaicellsDisconnectedState.readMsg env ctx m)
  | .baicellsRemWait w => liftRead (.baicellsRemWait w)
      (BaicellsRemWaitState.readMsg ctx m)
  | .waitEmptyMessage w => liftRead (.waitEmptyMessage w)
      (WaitEmptyMessageState.readMsg w ctx m)
  | .checkOptionalParams w p => liftRead (.checkOptionalParams w p)
      (CheckOptionalParamsState.readMsg env w p ctx m)
  | .sendGetTransientParams w => liftRead (.sendGetTransientParams w)
      (SendGetTransientParametersState.readMsg ctx m)
  | .waitGetTransientParams w1 w2 w3 w4 w5 w6 =>
      liftRead (.waitGetTransientParams w1 w2 w3 w4 w5 w6)
        (WaitGetTransientParametersState.readMsg env w1 w2 w3 w4 w6 ctx m)
  | .getParams w => liftRead (.getParams w)
      (GetParametersState.readMsg ctx m)
  | .waitGetParams w => liftRead (.waitGetParams w)
      (WaitGetParametersState.readMsg env w ctx m)
  | .getObjectParams w => baseReadMsg "GetObjectParametersState"
      (.getObjectParams w) ctx
  | .waitGetObjectParams w1 w2 w3 w4 =>
      liftRead (.waitGetObjectParams w1 w2 w3 w4)
        (WaitGetObjectParametersState.readMsg env w1 w2 w3 w4 ctx m)
  | .deleteObjects w1 w2 dp => liftRead (.deleteObjects w1 w2 dp)
      (DeleteObjectsState.readMsg env w1 w2 dp ctx m)
  | .addObjects w ap => liftRead (.addObjects w ap)
      (AddObjectsState.readMsg env w ap ctx m)
  | .setParameterValues w => baseReadMsg "SetParameterValuesState"
      (.setParameterValues w) ctx
  | .setParameterValuesNotAdmin w =>
      baseReadMsg "SetParameterValuesNotAdminState"
        (.setParameterValuesNotAdmin w) ctx
  | .waitSetParameterValues w => liftRead (.waitSetParameterValues w)
      (WaitSetParameterValuesState.readMsg env w ctx m)
  | .sendReboot w => liftRead (.sendReboot w)
      (SendRebootState.readMsg ctx m)
  | .waitRebootResponse w => liftRead (.waitRebootResponse w)
      (WaitRebootResponseState.readMsg w ctx m)
  | .waitInformMReboot w1 w2 ri =>
      liftReadMR w1 w2 (WaitInformMRebootState.readMsg env ri ctx m)
  | .waitRebootDelay w => liftRead (.waitRebootDelay w)
      (WaitRebootDelayState.readMsg ctx m)
  | .errorState => liftRead .errorState (ErrorState.readMsg ctx m)

/-- Result of dispatching a send request to the current state. No `get_msg` in
the file mutates the machine context, so the dispatcher passes it through; the
state object is returned because three states stash the object of the request
in a field. -/
abbrev DispatchGetRet := Except (Err × StateK) (AcsMsgAndTransition × StateK)

/-- Re-attach the (unchanged) state object to a per-state send result. -/
def liftGet (st : StateK) : GetRet → DispatchGetRet
  | .ok r => .ok (r, st)
  | .error e => .error (e, st)

/-- The base-class `EnodebAcsState.get_msg`, raised by states that do not
override message sending. -/
def baseGetMsg (className : String) (st : StateK) : DispatchGetRet :=
  .error (.configurationError
            (className ++ " should implement get_msg() if it needs to " ++
              "produce messages"), st)

/-- Dispatch an outbound-message request to the current state's `get_msg`. -/
def getMsg (env : Env) (st : StateK) (ctx : AcsCtx) : DispatchGetRet :=
  match st with
  | .disconnected w => liftGet (.disconnected w) (DisconnectedState.getMsg w)
  | .unexpectedInform w => liftGet (.unexpectedInform w)
      (UnexpectedInformState.getMsg w)
  | .baicellsDisconnected w => liftGet (.baicellsDisconnected w)
      (BaicellsDisconnectedState.getMsg w)
  | .baicellsRemWait w => liftGet (.baicellsRemWait w)
      BaicellsRemWaitState.getMsg
  | .waitEmptyMessage w => baseGetMsg "WaitEmptyMessageState"
      (.waitEmptyMessage w)
  | .checkOptionalParams w _ =>
      match CheckOptionalParamsState.getMsg env ctx with
      | .ok (r, p') => .ok (r, .checkOptionalParams w p')
      | .error (e, p') => .error (e, .checkOptionalParams w p')
  | .sendGetTransientParams w => liftGet (.sendGetTransientParams w)
      (SendGetTransientParametersState.getMsg w ctx)
  | .waitGetTransientParams w1 w2 w3 w4 w5 w6 =>
      baseGetMsg "WaitGetTransientParametersState"
        (.waitGetTransientParams w1 w2 w3 w4 w5 w6)
  | .getParams w => liftGet (.getParams w)
      (GetParametersState.getMsg env w ctx)
  | .waitGetParams w => baseGetMsg "WaitGetParametersState" (.waitGetParams w)
  | .getObjectParams w => liftGet (.getObjectParams w)
      (GetObjectParametersState.getMsg env w ctx)
  | .waitGetObjectParams w1 w2 w3 w4 =>
      baseGetMsg "WaitGetObjectParametersState"
        (.waitGetObjectParams w1 w2 w3 w4)
  | .deleteObjects w1 w2 dp =>
      match DeleteObjectsState.getMsg env ctx with
      | .ok (r, dp') => .ok (r, .deleteObjects w1 w2 dp')
      | .error e => .error (e, .deleteObjects w1 w2 dp)
  | .addObjects w ap =>
      match AddObjectsState.getMsg env ctx with
      | .ok (r, ap') => .ok (r, .addObjects w ap')
      | .error e => .error (e, .addObjects w ap)
  | .setParameterValues w => liftGet (.setParameterValues w)
      (SetParameterValuesState.getMsg env w ctx)
  | .setParameterValuesNotAdmin w => liftGet (.setParameterValuesNotAdmin w)
      (SetParameterValuesNotAdminState.getMsg env w ctx)
  | .waitSetParameterValues w => baseGetMsg "WaitSetParameterValuesState"
      (.waitSetParameterValues w)
  | .sendReboot w => liftGet (.sendReboot w) (SendRebootState.getMsg w)
  | .waitRebootResponse w => liftGet (.waitRebootResponse w)
      (WaitRebootResponseState.getMsg w)
  | .waitInformMReboot w1 w2 ri => liftGet (.waitInformMReboot w1 w2 ri)
      (WaitInformMRebootState.getMsg w1 ri)
  | .waitRebootDelay w => liftGet (.waitRebootDelay w)
      WaitRebootDelayState.getMsg
  | .errorState => liftGet .errorState ErrorState.getMsg

/-- The context a per-state read handler leaves behind, on either path. -/
def outCtx : ReadRet → AcsCtx
  | .ok (_, c) => c
  | .error (_, c) => c

/-- The context the dispatcher leaves behind, on either path. -/
def dispatchOutCtx : DispatchReadRet → AcsCtx
  | .ok (_, _, c) => c
  | .error (_, _, c) => c

/-- The context a `WaitInformMRebootState` read leaves behind. -/
def outCtxMR :
    Except (Err × Bool × AcsCtx) (AcsReadMsgResult × Bool × AcsCtx) → AcsCtx
  | .ok (_, _, c) => c
  | .error (_, _, c) => c

section Fixtures

/-- A small concrete data model used to instantiate the universally
quantified theorems below on closed inputs. -/
def dmA : DataModel where
  presence := fun n => if n = ParameterName.RF_TX_STATUS then some true else none
  paramPath := fun n => "Device." ++ n
  paramType := fun _ => "string"
  transformForMagma := fun _ v => v
  transformForEnb := fun _ v => v
  numberedParamNames := [(ParameterName.PLMN_n 1, [])]
  optionalParams := []

/-- An empty device store. -/
def cfgA : DeviceCfg where
  params := []
  objects := []
  objParams := []

/-- A concrete machine context. -/
def ctxA : AcsCtx where
  deviceCfg := cfgA
  desiredCfg := none
  dataModel := dmA
  clearStatsCalls := 0
  buildDesiredCalls := 0

/-- A concrete environment of external collaborators: all reconciliation
helpers report nothing to do, the parser treats wire names as parameter
names, and `process_inform_message` / `build_desired_config` act trivially. -/
def envA : Env where
  getParamsToGet := fun _ _ => []
  getObjectParamsToGet := fun _ _ _ => []
  getAllObjectsToDelete := fun _ _ => []
  getAllObjectsToAdd := fun _ _ => []
  getAllParamValuesToSet := fun _ _ _ _ => []
  getParamValuesToSet := fun _ _ _ => []
  getObjParamValuesToSet := fun _ _ _ => []
  getOptionalParamToCheck := fun dm =>
    dm.optionalParams.find? (fun n => (dm.presence n).isNone)
  parseGetParameterValuesResponse := fun _ wire => wire
  processInformMessage := fun _ _ cfg => cfg
  buildDesiredConfig := fun cfg _ => cfg

/-- A device store that has previously recorded `RF_TX_STATUS = True`. -/
def cfgB : DeviceCfg where
  params := [(ParameterName.RF_TX_STATUS, Val.vBool true)]
  objects := []
  objParams := []

/-- A machine context whose device store says the radio was transmitting. -/
def ctxB : AcsCtx where
  deviceCfg := cfgB
  desiredCfg := none
  dataModel := dmA
  clearStatsCalls := 0
  buildDesiredCalls := 0

/-- The context `ctxB` after reading a response carrying
`RF_TX_STATUS = False`: the store is updated and `clear_stats` was called
once. -/
def ctxB_out : AcsCtx where
  deviceCfg := { params := [(ParameterName.RF_TX_STATUS, Val.vBool false)],
                 objects := [], objParams := [] }
  desiredCfg := none
  dataModel := dmA
  clearStatsCalls := 1
  buildDesiredCalls := 0

end Fixtures

section AssocLemmas

variable {α β : Type} [DecidableEq α]

theorem lookupA_setAssoc_self (l : List (α × β)) (k : α) (v : β) :
    lookupA (setAssoc l k v) k = some v := by
  induction l with
  | nil => simp [setAssoc, lookupA]
  | cons hd tl ih =>
      obtain ⟨k', v'⟩ := hd
      by_cases hk : k' = k <;> simp [setAssoc, lookupA, hk, ih]

theorem lookupA_setAssoc_ne (l : List (α × β)) {k k' : α} (v : β)
    (h : k ≠ k') : lookupA (setAssoc l k v) k' = lookupA l k' := by
  induction l with
  | nil => simp [setAssoc, lookupA, h]
  | cons hd tl ih =>
      obtain ⟨k₀, v₀⟩ := hd
      by_cases hk : k₀ = k
      · subst hk
        simp [setAssoc, lookupA, h]
      · simp only [setAssoc, if_neg hk, lookupA, ih]

end AssocLemmas

section MarkLemmas

/-- The scalar half of `_mark_as_configured` leaves parameters it does not
set untouched. -/
theorem markScalars_getParameter_not_mem (dm : DataModel)
    (l : List (ParamName × Val)) :
    ∀ (cfg : DeviceCfg) (n : ParamName), n ∉ l.map Prod.fst →
      (WaitSetParameterValuesState.markScalars dm l cfg).getParameter n
        = cfg.getParameter n := by
  induction l with
  | nil => intro cfg n _; rfl
  | cons hd tl ih =>
      obtain ⟨name, val⟩ := hd
      intro cfg n h
      simp only [List.map_cons, List.mem_cons, not_or] at h
      rw [WaitSetParameterValuesState.markScalars, ih _ _ h.2]
      exact lookupA_setAssoc_ne _ _ (fun hk => h.1 hk.symm)

/-- The scalar half of `_mark_as_configured` stores, for each attempted
(name, value) pair with no duplicate names, the magma-transformed value. -/
theorem markScalars_getParameter_mem (dm : DataModel)
    (l : List (ParamName × Val)) :
    ∀ (cfg : DeviceCfg) (n : ParamName) (v : Val),
      (l.map Prod.fst).Nodup → (n, v) ∈ l →
      (WaitSetParameterValuesState.markScalars dm l cfg).getParameter n
        = some (dm.transformForMagma n v) := by
  induction l with
  | nil => intro _ _ _ _ hmem; cases hmem
  | cons hd tl ih =>
      obtain ⟨name, val⟩ := hd
      intro cfg n v hdup hmem
      simp only [List.map_cons, List.nodup_cons] at hdup
      rcases List.mem_cons.mp hmem with heq | htl
      · cases heq
        rw [WaitSetParameterValuesState.markScalars,
          markScalars_getParameter_not_mem dm tl _ _ hdup.1]
        exact lookupA_setAssoc_self ..
      · exact ih _ _ _ hdup.2 htl

/-- The object half of `_mark_as_configured` never touches the scalar
parameter map. -/
theorem markObjs_params (dm : DataModel)
    (l : List (ObjName × List (ParamName × Val))) :
    ∀ cfg : DeviceCfg,
      (WaitSetParameterValuesState.markObjs dm l cfg).params = cfg.params := by
  induction l with
  | nil => intro _; rfl
  | cons hd tl ih =>
      obtain ⟨objName, nameToVal⟩ := hd
      intro cfg
      rw [WaitSetParameterValuesState.markObjs, ih]
      clear ih
      induction nameToVal generalizing cfg with
      | nil => rfl
      | cons p ps ihp => rw [List.foldl_cons, ihp]; rfl

end MarkLemmas

section RespLoopLemmas

/-- After a nonempty response loop the optional parameter's presence flag is
known-present. -/
theorem respLoop_presence (p : ParamName) (l : List (ParamName × Val)) :
    ∀ (dm : DataModel) (cfg : DeviceCfg), l ≠ [] →
      ((CheckOptionalParamsState.respLoop p l dm cfg).1).presence p
        = some true := by
  induction l with
  | nil => intro _ _ h; exact absurd rfl h
  | cons hd tl ih =>
      obtain ⟨name, val⟩ := hd
      intro dm cfg _
      by_cases ht : tl = []
      · subst ht
        simp [CheckOptionalParamsState.respLoop,
          DataModel.setParameterPresence]
      · exact ih _ _ ht

/-- The response loop leaves parameters it does not store untouched. -/
theorem respLoop_getParameter_not_mem (p : ParamName)
    (l : List (ParamName × Val)) :
    ∀ (dm : DataModel) (cfg : DeviceCfg) (n : ParamName),
      n ∉ l.map Prod.fst →
      ((CheckOptionalParamsState.respLoop p l dm cfg).2).getParameter n
        = cfg.getParameter n := by
  induction l with
  | nil => intro _ _ _ _; rfl
  | cons hd tl ih =>
      obtain ⟨name, val⟩ := hd
      intro dm cfg n h
      simp only [List.map_cons, List.mem_cons, not_or] at h
      rw [CheckOptionalParamsState.respLoop, ih _ _ _ h.2]
      exact lookupA_setAssoc_ne _ _ (fun hk => h.1 hk.symm)

/-- The response loop stores, for each parsed (name, value) pair with no
duplicate names, the magma-transformed value. -/
theorem respLoop_getParameter_mem (p : ParamName)
    (l : List (ParamName × Val)) :
    ∀ (dm : DataModel) (cfg : DeviceCfg) (n : ParamName) (v : Val),
      (l.map Prod.fst).Nodup → (n, v) ∈ l →
      ((CheckOptionalParamsState.respLoop p l dm cfg).2).getParameter n
        = some (dm.transformForMagma n v) := by
  induction l with
  | nil => intro _ _ _ _ _ hmem; cases hmem
  | cons hd tl ih =>
      obtain ⟨name, val⟩ := hd
      intro dm cfg n v hdup hmem
      simp only [List.map_cons, List.nodup_cons] at hdup
      rcases List.mem_cons.mp hmem with heq | htl
      · cases heq
        rw [CheckOptionalParamsState.respLoop,
          respLoop_getParameter_not_mem p tl _ _ _ hdup.1]
        exact lookupA_setAssoc_self ..
      · exact ih _ _ _ _ hdup.2 htl

end RespLoopLemmas

section DispatchLemmas

theorem dispatchOutCtx_liftRead (st : StateK) (r : ReadRet) :
    dispatchOutCtx (liftRead st r) = outCtx r := by
  cases r with
  | ok a => obtain ⟨x, c⟩ := a; rfl
  | error e => obtain ⟨x, c⟩ := e; rfl

theorem liftRead_ok {st : StateK} {res : ReadRet} {r : AcsReadMsgResult}
    {st' : StateK} {ctx' : AcsCtx}
    (h : liftRead st res = .ok (r, st', ctx')) :
    res = .ok (r, ctx') := by
  cases res with
  | ok a => obtain ⟨x, c⟩ := a; cases h; rfl
  | error e => obtain ⟨x, c⟩ := e; cases h

theorem dispatchOutCtx_liftReadMR (w1 w2 : String)
    (r : Except (Err × Bool × AcsCtx) (AcsReadMsgResult × Bool × AcsCtx)) :
    dispatchOutCtx (liftReadMR w1 w2 r) = outCtxMR r := by
  cases r with
  | ok a => obtain ⟨x, ri, c⟩ := a; rfl
  | error e => obtain ⟨x, ri, c⟩ := e; rfl

theorem liftReadMR_ok {w1 w2 : String}
    {res : Except (Err × Bool × AcsCtx) (AcsReadMsgResult × Bool × AcsCtx)}
    {r : AcsReadMsgResult} {st' : StateK} {ctx' : AcsCtx}
    (h : liftReadMR w1 w2 res = .ok (r, st', ctx')) :
    ∃ ri : Bool, res = .ok (r, ri, ctx') := by
  cases res with
  | ok a => obtain ⟨x, ri, c⟩ := a; cases h; exact ⟨ri, rfl⟩
  | error e => obtain ⟨x, ri, c⟩ := e; cases h

end DispatchLemmas

/-- C10: `UnexpectedInformState` and `BaicellsDisconnectedState` are
behaviourally identical to `DisconnectedState`: with the same constructor
arguments, `read_msg` returns the same result and performs the same
device-store update on every message, and `get_msg` returns an
`InformResponse` with `MaxEnvelopes = 1` together with the configured done
transition. -/
theorem claim_C10_disconnected_clones :
    (∀ (env : Env) (ctx : AcsCtx) (m : Msg),
       UnexpectedInformState.readMsg env ctx m
         = DisconnectedState.readMsg env ctx m) ∧
    (∀ (env : Env) (ctx : AcsCtx) (m : Msg),
       BaicellsDisconnectedState.readMsg env ctx m
         = DisconnectedState.readMsg env ctx m) ∧
    (∀ w : String,
       UnexpectedInformState.getMsg w = DisconnectedState.getMsg w) ∧
    (∀ w : String,
       BaicellsDisconnectedState.getMsg w = DisconnectedState.getMsg w) ∧
    (∀ w : String,
       DisconnectedState.getMsg w = .ok ⟨.informResponse 1, some w⟩) :=
  ⟨fun _ _ _ => rfl, fun _ _ _ => rfl, fun _ => rfl, fun _ => rfl,
   fun _ => rfl⟩

/-- C4: `WaitGetTransientParametersState` selects its next state by a
first-match priority ladder — params-to-get, then object-params-to-get, then
objects-to-delete, then objects-to-add, and `skip` when all four lists are
empty. -/
theorem claim_C4_priority_ladder (env : Env)
    (whenGet whenGetObjParams whenDelete whenAdd whenSkip : String)
    (ctx : AcsCtx) :
    (env.getParamsToGet ctx.deviceCfg ctx.dataModel ≠ [] →
       WaitGetTransientParametersState.getNextState env whenGet whenGetObjParams
         whenDelete whenAdd whenSkip ctx = whenGet) ∧
    (env.getParamsToGet ctx.deviceCfg ctx.dataModel = [] →
     env.getObjectParamsToGet ctx.desiredCfg ctx.deviceCfg ctx.dataModel ≠ [] →
       WaitGetTransientParametersState.getNextState env whenGet whenGetObjParams
         whenDelete whenAdd whenSkip ctx = whenGetObjParams) ∧
    (env.getParamsToGet ctx.deviceCfg ctx.dataModel = [] →
     env.getObjectParamsToGet ctx.desiredCfg ctx.deviceCfg ctx.dataModel = [] →
     env.getAllObjectsToDelete ctx.desiredCfg ctx.deviceCfg ≠ [] →
       WaitGetTransientParametersState.getNextState env whenGet whenGetObjParams
         whenDelete whenAdd whenSkip ctx = whenDelete) ∧
    (env.getParamsToGet ctx.deviceCfg ctx.dataModel = [] →
     env.getObjectParamsToGet ctx.desiredCfg ctx.deviceCfg ctx.dataModel = [] →
     env.getAllObjectsToDelete ctx.desiredCfg ctx.deviceCfg = [] →
     env.getAllObjectsToAdd ctx.desiredCfg ctx.deviceCfg ≠ [] →
       WaitGetTransientParametersState.getNextState env whenGet whenGetObjParams
         whenDelete whenAdd whenSkip ctx = whenAdd) ∧
    (env.getParamsToGet ctx.deviceCfg ctx.dataModel = [] →
     env.getObjectParamsToGet ctx.desiredCfg ctx.deviceCfg ctx.dataModel = [] →
     env.getAllObjectsToDelete ctx.desiredCfg ctx.deviceCfg = [] →
     env.getAllObjectsToAdd ctx.desiredCfg ctx.deviceCfg = [] →
       WaitGetTransientParametersState.getNextState env whenGet whenGetObjParams
         whenDelete whenAdd whenSkip ctx = whenSkip) := by
  refine ⟨fun h1 => ?_, fun h1 h2 => ?_, fun h1 h2 h3 => ?_,
          fun h1 h2 h3 h4 => ?_, fun h1 h2 h3 h4 => ?_⟩ <;>
    simp_all [WaitGetTransientParametersState.getNextState,
      List.length_pos, List.length_eq_zero]

/-- Witness for C4 at a closed input: with the concrete environment `envA`
every reconciliation list is empty and the ladder selects the skip target. -/
theorem claim_C4_witness :
    WaitGetTransientParametersState.getNextState envA "g" "go" "d" "a" "sk"
      ctxA = "sk" :=
  (claim_C4_priority_ladder envA "g" "go" "d" "a" "sk" ctxA).2.2.2.2
    rfl rfl rfl rfl

/-- C1: in `WaitSetParameterValuesState.read_msg`, a `SetParameterValuesResponse`
with status 0 writes the attempted values (scalar and object sub-parameters,
magma-transformed) into the device store and transitions to the done target; a
nonzero status or a `Fault` raises `Tr069Error` with the device store
untouched; every other message is not handled. -/
theorem claim_C1_wait_set_parameter_values (env : Env) (w : String)
    (ctx : AcsCtx) :
    (WaitSetParameterValuesState.readMsg env w ctx
        (.setParameterValuesResponse 0)
      = .ok (⟨true, some w⟩,
             WaitSetParameterValuesState.markAsConfigured env ctx)) ∧
    (∀ (n : ParamName) (v : Val),
       ((env.getParamValuesToSet ctx.desiredCfg ctx.deviceCfg
           ctx.dataModel).map Prod.fst).Nodup →
       (n, v) ∈ env.getParamValuesToSet ctx.desiredCfg ctx.deviceCfg
           ctx.dataModel →
       (WaitSetParameterValuesState.markAsConfigured env
           ctx).deviceCfg.getParameter n
         = some (ctx.dataModel.transformForMagma n v)) ∧
    (∀ status : Int, status ≠ 0 →
       WaitSetParameterValuesState.readMsg env w ctx
           (.setParameterValuesResponse status)
         = .error (.tr069 ("Received SetParameterValuesResponse with Status="
             ++ toString status), ctx)) ∧
    (∀ (fs : String) (sf : Option (List SPVFault)),
       WaitSetParameterValuesState.readMsg env w ctx (.fault fs sf)
         = .error (.tr069 ("Received Fault in response to SetParameterValues "
             ++ "(faultstring = " ++ fs ++ ")"), ctx)) ∧
    (∀ m : Msg, (∀ s, m ≠ .setParameterValuesResponse s) →
       (∀ fs sf, m ≠ .fault fs sf) →
       WaitSetParameterValuesState.readMsg env w ctx m
         = .ok (⟨false, none⟩, ctx)) := by
  refine ⟨?_, ?_, ?_, ?_, ?_⟩
  · rfl
  · intro n v hdup hmem
    simp only [WaitSetParameterValuesState.markAsConfigured,
      DeviceCfg.getParameter]
    rw [markObjs_params]
    exact markScalars_getParameter_mem _ _ _ _ _ hdup hmem
  · intro status h
    simp [WaitSetParameterValuesState.readMsg, h]
  · intro fs sf
    rfl
  · intro m h1 h2
    cases m <;> simp_all [WaitSetParameterValuesState.readMsg]

/-- Witness for C1 at a closed input: status 1 raises `Tr069Error` and leaves
the context unchanged. -/
theorem claim_C1_witness :
    WaitSetParameterValuesState.readMsg envA "w" ctxA
        (.setParameterValuesResponse 1)
      = .error (.tr069 ("Received SetParameterValuesResponse with Status="
          ++ toString (1 : Int)), ctxA) :=
  (claim_C1_wait_set_parameter_values envA "w" ctxA).2.2.1 1 (by decide)

/-- C6: in `WaitInformMRebootState`, an `Inform` without an `M Reboot` event
code raises `Tr069Error`; one containing it sets `received_inform` and
processes the inform contents into the device store; a `Fault` is consumed as
handled with no transition; and `get_msg` replies `InformResponse` with
`MaxEnvelopes = 1` plus the done transition once the inform was received,
otherwise `DummyInput` with no transition. -/
theorem claim_C6_wait_inform_m_reboot (env : Env) (w : String)
    (ri : Bool) (ctx : AcsCtx) :
    (∀ eventCodes : List String, (∀ e ∈ eventCodes, e ≠ "M Reboot") →
       WaitInformMRebootState.readMsg env ri ctx (.inform eventCodes)
         = .error (.tr069 "Did not receive M Reboot event code in Inform",
             ri, ctx)) ∧
    (∀ eventCodes : List String, "M Reboot" ∈ eventCodes →
       WaitInformMRebootState.readMsg env ri ctx (.inform eventCodes)
         = .ok (⟨true, none⟩, true,
             { ctx with deviceCfg :=
                 (env.processInformMessage (.inform eventCodes) ctx.dataModel
                   ctx.deviceCfg) })) ∧
    (∀ (fs : String) (sf : Option (List SPVFault)),
       WaitInformMRebootState.readMsg env ri ctx (.fault fs sf)
         = .ok (⟨true, none⟩, ri, ctx)) ∧
    (WaitInformMRebootState.getMsg w true
       = .ok ⟨.informResponse 1, some w⟩) ∧
    (WaitInformMRebootState.getMsg w false = .ok ⟨.dummyInput, none⟩) ∧
    (∀ m : Msg, (∀ ev, m ≠ .inform ev) → (∀ fs sf, m ≠ .fault fs sf) →
       WaitInformMRebootState.readMsg env ri ctx m
         = .ok (⟨false, none⟩, ri, ctx)) := by
  refine ⟨?_, ?_, fun _ _ => rfl, rfl, rfl, ?_⟩
  · intro ev h
    have hany : ev.any (fun e => e = WaitInformMRebootState.INFORM_EVENT_CODE)
        = false := by
      simp only [List.any_eq_false, decide_eq_true_eq]
      exact fun e he => h e he
    simp [WaitInformMRebootState.readMsg, hany]
  · intro ev h
    have hany : ev.any (fun e => e = WaitInformMRebootState.INFORM_EVENT_CODE)
        = true := by
      simp only [List.any_eq_true, decide_eq_true_eq]
      exact ⟨"M Reboot", h, rfl⟩
    simp [WaitInformMRebootState.readMsg, hany]
  · intro m h1 h2
    cases m <;> simp_all [WaitInformMRebootState.readMsg]

/-- Witness for C6 at a closed input: an `Inform` carrying only a boot event
code raises the fatal error. -/
theorem claim_C6_witness :
    WaitInformMRebootState.readMsg envA false ctxA (.inform ["1 BOOT"])
      = .error (.tr069 "Did not receive M Reboot event code in Inform",
          false, ctxA) :=
  (claim_C6_wait_inform_m_reboot envA "w" false ctxA).1 ["1 BOOT"]
    (by intro e he; simp at he; simp [he])

/-- C5: `SetParameterValuesState.get_msg` maps each parameter by its
data-model type tag — int/unsignedInt to `xsd:int`/`xsd:unsignedInt` with the
decimal string of the transformed value, boolean to `xsd:boolean` with data
exactly `"0"` or `"1"`, string to `xsd:string` with the string value; any
other tag raises `Tr069Error`; and a successfully built message always
carries the transition to the wait state. -/
theorem claim_C5_set_parameter_type_mapping (env : Env) (w : String)
    (ctx : AcsCtx) (dm : DataModel) (n : ParamName) (v : Val) :
    (∀ k : Int, (dm.paramType n = "int" ∨ dm.paramType n = "unsignedInt") →
       dm.transformForEnb n v = .vInt k →
       SetParameterValuesState.wireEntryOf dm n v
         = .ok ⟨dm.paramPath n, "xsd:" ++ dm.paramType n, toString k⟩) ∧
    (∀ b : Bool, dm.paramType n = "boolean" →
       dm.transformForEnb n v = .vBool b →
       SetParameterValuesState.wireEntryOf dm n v
         = .ok ⟨dm.paramPath n, "xsd:boolean", if b then "1" else "0"⟩) ∧
    (∀ s : String, dm.paramType n = "string" →
       dm.transformForEnb n v = .vStr s →
       SetParameterValuesState.wireEntryOf dm n v
         = .ok ⟨dm.paramPath n, "xsd:string", s⟩) ∧
    (dm.paramType n ≠ "int" → dm.paramType n ≠ "unsignedInt" →
     dm.paramType n ≠ "boolean" → dm.paramType n ≠ "string" →
       SetParameterValuesState.wireEntryOf dm n v
         = .error (.tr069 ("Unsupported type for " ++ n ++ ": "
             ++ dm.paramType n))) ∧
    (∀ mt : AcsMsgAndTransition,
       SetParameterValuesState.getMsg env w ctx = .ok mt →
       mt.nextState = some w) := by
  refine ⟨?_, ?_, ?_, ?_, ?_⟩
  · intro k hty htr
    rcases hty with h | h <;>
      simp [SetParameterValuesState.wireEntryOf, h, htr, pyStr]
  · intro b hty htr
    cases b <;>
      simp [SetParameterValuesState.wireEntryOf, hty, htr, pyInt] <;> rfl
  · intro s hty htr
    simp [SetParameterValuesState.wireEntryOf, hty, htr, pyStr]
  · intro h1 h2 h3 h4
    simp [SetParameterValuesState.wireEntryOf, h1, h2, h3, h4]
  · intro mt h
    simp only [SetParameterValuesState.getMsg] at h
    split at h
    · cases h
    · cases h; rfl

/-- Witness for C5 at a closed input: a string-typed parameter maps to
`xsd:string` with the transformed string. -/
theorem claim_C5_witness :
    SetParameterValuesState.wireEntryOf dmA "X" (.vStr "hello")
      = .ok ⟨dmA.paramPath "X", "xsd:string", "hello"⟩ :=
  (claim_C5_set_parameter_type_mapping envA "w" ctxA dmA "X"
    (.vStr "hello")).2.2.1 "hello" rfl rfl

/-- C2: in `WaitGetTransientParametersState.read_msg`, for every processed
`GetParameterValuesResponse`, `clear_stats()` is invoked exactly once when the
previously stored `RF_TX_STATUS` is `True` and the received value is `False`,
and never in any other combination (a missing prior value counts as prior
`False`). -/
theorem claim_C2_radio_stop_clear_stats (env : Env)
    (g go d a sk : String) (ctx : AcsCtx) (wire : List (String × Val))
    (nextRfTx : Val)
    (h : lookupA (env.parseGetParameterValuesResponse ctx.dataModel wire)
           ParameterName.RF_TX_STATUS = some nextRfTx) :
    ∀ (r : AcsReadMsgResult) (ctx' : AcsCtx),
      WaitGetTransientParametersState.readMsg env g go d a sk ctx
          (.getParameterValuesResponse wire) = .ok (r, ctx') →
      r.msgHandled = true ∧
      ctx'.clearStatsCalls = ctx.clearStatsCalls +
        (if ctx.deviceCfg.getParameter ParameterName.RF_TX_STATUS
              = some (Val.vBool true) ∧ nextRfTx = Val.vBool false
         then 1 else 0) := by
  intro r ctx' hr
  have hprev :
      (if ctx.deviceCfg.hasParameter ParameterName.RF_TX_STATUS then
          (ctx.deviceCfg.getParameter ParameterName.RF_TX_STATUS).getD
            (.vBool false)
        else Val.vBool false) = Val.vBool true
      ↔ ctx.deviceCfg.getParameter ParameterName.RF_TX_STATUS
          = some (Val.vBool true) := by
    unfold DeviceCfg.hasParameter
    cases hg : ctx.deviceCfg.getParameter ParameterName.RF_TX_STATUS <;>
      simp [hg]
  simp only [WaitGetTransientParametersState.readMsg, h] at hr
  by_cases hc : ctx.deviceCfg.getParameter ParameterName.RF_TX_STATUS
      = some (Val.vBool true) ∧ nextRfTx = Val.vBool false
  · rw [if_pos ⟨hprev.mpr hc.1, hc.2⟩] at hr
    cases hr
    simp [hc]
  · rw [if_neg (fun hcc => hc ⟨hprev.mp hcc.1, hcc.2⟩)] at hr
    cases hr
    simp [hc]

/-- Witness for C2 at a closed input: prior `True`, received `False`, exactly
one `clear_stats` call. -/
theorem claim_C2_witness :
    (⟨true, some "sk"⟩ : AcsReadMsgResult).msgHandled = true ∧
    ctxB_out.clearStatsCalls = ctxB.clearStatsCalls +
      (if ctxB.deviceCfg.getParameter ParameterName.RF_TX_STATUS
            = some (Val.vBool true) ∧ Val.vBool false = Val.vBool false
       then 1 else 0) :=
  claim_C2_radio_stop_clear_stats envA "g" "go" "d" "a" "sk" ctxB
    [(ParameterName.RF_TX_STATUS, Val.vBool false)] (Val.vBool false) rfl
    ⟨true, some "sk"⟩ ctxB_out (by rfl)

/-- C9: `WaitGetTransientParametersState.read_msg` performs an unguarded
lookup of `RF_TX_STATUS` in the parsed response: whenever the parse result
omits that name the handler raises a `KeyError` instead of returning a result
(context untouched) — reachable because
`SendGetTransientParametersState.get_msg` requests only the `PARAMETERS`
present in this device's data model. -/
theorem claim_C9_unguarded_rf_tx_lookup (env : Env) (g go d a sk w : String)
    (ctx : AcsCtx) (wire : List (String × Val)) :
    (lookupA (env.parseGetParameterValuesResponse ctx.dataModel wire)
        ParameterName.RF_TX_STATUS = none →
      WaitGetTransientParametersState.readMsg env g go d a sk ctx
          (.getParameterValuesResponse wire)
        = .error (.keyError ParameterName.RF_TX_STATUS, ctx)) ∧
    (SendGetTransientParametersState.getMsg w ctx
      = .ok ⟨.getParameterValues "xsd:string[7]"
          ((SendGetTransientParametersState.PARAMETERS.filter
             (fun n => ctx.dataModel.isParameterPresent n)).map
             (fun n => ctx.dataModel.paramPath n)), some w⟩) := by
  constructor
  · intro h
    simp only [WaitGetTransientParametersState.readMsg, h]
  · rfl

/-- Witness for C9 at a closed input: an empty response parses to an empty
dict and the handler raises `KeyError`. -/
theorem claim_C9_witness :
    WaitGetTransientParametersState.readMsg envA "g" "go" "d" "a" "sk" ctxA
        (.getParameterValuesResponse [])
      = .error (.keyError ParameterName.RF_TX_STATUS, ctxA) :=
  (claim_C9_unguarded_rf_tx_lookup envA "g" "go" "d" "a" "sk" "w" ctxA []).1
    rfl

/-- C7: `CheckOptionalParamsState`: `get_msg` raises
`Tr069Error('Invalid State')` when no unknown-presence parameter remains and
otherwise requests the chosen parameter's path; on read, a `Fault` marks the
current optional parameter absent and a `GetParameterValuesResponse` marks it
present and stores the transformed values; after either response the state
self-loops (handled, no transition) exactly while another unknown-presence
parameter remains, else transitions to the configured target. -/
theorem claim_C7_check_optional_params (env : Env) (w : String)
    (p : ParamName) (ctx : AcsCtx) :
    (env.getOptionalParamToCheck ctx.dataModel = none →
       CheckOptionalParamsState.getMsg env ctx
         = .error (.tr069 "Invalid State", none)) ∧
    (env.getOptionalParamToCheck ctx.dataModel = some p →
       CheckOptionalParamsState.getMsg env ctx
         = .ok (⟨.getParameterValues "xsd:string[1]"
                   [ctx.dataModel.paramPath p], none⟩, some p)) ∧
    (∀ (fs : String) (sf : Option (List SPVFault)),
       CheckOptionalParamsState.readMsg env w (some p) ctx (.fault fs sf)
         = .ok (⟨true,
             if (env.getOptionalParamToCheck
                   (ctx.dataModel.setParameterPresence p false)).isSome
             then none else some w⟩,
             { ctx with dataModel :=
                 ctx.dataModel.setParameterPresence p false })) ∧
    ((ctx.dataModel.setParameterPresence p false).presence p = some false) ∧
    (∀ (wire : List (String × Val)) (r : AcsReadMsgResult) (ctx' : AcsCtx),
       env.parseGetParameterValuesResponse ctx.dataModel wire ≠ [] →
       CheckOptionalParamsState.readMsg env w (some p) ctx
           (.getParameterValuesResponse wire) = .ok (r, ctx') →
       r.msgHandled = true ∧
       ctx'.dataModel.presence p = some true ∧
       r.nextState = (if (env.getOptionalParamToCheck ctx'.dataModel).isSome
                      then none else some w) ∧
       (∀ (n : ParamName) (v : Val),
          ((env.parseGetParameterValuesResponse ctx.dataModel wire).map
             Prod.fst).Nodup →
          (n, v) ∈ env.parseGetParameterValuesResponse ctx.dataModel wire →
          ctx'.deviceCfg.getParameter n
            = some (ctx.dataModel.transformForMagma n v))) := by
  refine ⟨?_, ?_, ?_, ?_, ?_⟩
  · intro h
    simp [CheckOptionalParamsState.getMsg, h]
  · intro h
    simp [CheckOptionalParamsState.getMsg, h]
  · intro fs sf
    by_cases hc : (env.getOptionalParamToCheck
        (ctx.dataModel.setParameterPresence p false)).isSome <;>
      simp [CheckOptionalParamsState.readMsg, hc]
  · simp [DataModel.setParameterPresence]
  · intro wire r ctx' hne hr
    simp only [CheckOptionalParamsState.readMsg] at hr
    split at hr <;> cases hr
    case isTrue.refl hc =>
      refine ⟨rfl, respLoop_presence p _ _ _ hne, ?_, ?_⟩
      · simp only at hc ⊢
        simp [hc]
      · intro n v hdup hmem
        exact respLoop_getParameter_mem p _ _ _ _ _ hdup hmem
    case isFalse.refl hc =>
      refine ⟨rfl, respLoop_presence p _ _ _ hne, ?_, ?_⟩
      · simp only at hc ⊢
        simp [hc]
      · intro n v hdup hmem
        exact respLoop_getParameter_mem p _ _ _ _ _ hdup hmem

/-- Witness for C7 at a closed input: with no optional parameter left to
check, `get_msg` raises `Tr069Error('Invalid State')`. -/
theorem claim_C7_witness :
    CheckOptionalParamsState.getMsg envA ctxA
      = .error (.tr069 "Invalid State", none) :=
  (claim_C7_check_optional_params envA "w" "P" ctxA).1 rfl

/-- C3: `build_desired_config` is invoked at most once per provisioning
cycle — whenever the desired configuration is non-null, every state's
`read_msg` leaves it (and the build counter) unchanged, and
`WaitGetObjectParametersState.read_msg` builds it, exactly once, precisely
when it is null. -/
theorem claim_C3_desired_cfg_built_once (env : Env) (st : StateK)
    (ctx : AcsCtx) (m : Msg) :
    (∀ d : DeviceCfg, ctx.desiredCfg = some d →
       (dispatchOutCtx (readMsg env st ctx m)).desiredCfg = some d ∧
       (dispatchOutCtx (readMsg env st ctx m)).buildDesiredCalls
         = ctx.buildDesiredCalls) ∧
    (∀ (w1 w2 w3 w4 : String) (wire : List (String × Val))
       (r : AcsReadMsgResult) (st' : StateK) (ctx' : AcsCtx),
       ctx.desiredCfg = none →
       readMsg env (.waitGetObjectParams w1 w2 w3 w4) ctx
           (.getParameterValuesResponse wire) = .ok (r, st', ctx') →
       ctx'.desiredCfg
           = some (env.buildDesiredConfig ctx'.deviceCfg ctx.dataModel) ∧
       ctx'.buildDesiredCalls = ctx.buildDesiredCalls + 1) := by
  constructor
  · intro d hd
    cases st <;> simp only [readMsg, baseReadMsg, dispatchOutCtx_liftRead]
    case getObjectParams w => simp [dispatchOutCtx, hd]
    case setParameterValues w => simp [dispatchOutCtx, hd]
    case setParameterValuesNotAdmin w => simp [dispatchOutCtx, hd]
    case waitInformMReboot w1 w2 ri =>
      rw [dispatchOutCtx_liftReadMR]
      cases m <;> simp only [WaitInformMRebootState.readMsg] <;>
        (repeat' split) <;> simp [outCtxMR, hd]
    all_goals
      cases m <;>
        simp only [DisconnectedState.readMsg, UnexpectedInformState.readMsg,
          BaicellsDisconnectedState.readMsg, BaicellsRemWaitState.readMsg,
          WaitEmptyMessageState.readMsg, CheckOptionalParamsState.readMsg,
          SendGetTransientParametersState.readMsg,
          WaitGetTransientParametersState.readMsg, GetParametersState.readMsg,
          WaitGetParametersState.readMsg, WaitGetObjectParametersState.readMsg,
          DeleteObjectsState.readMsg, AddObjectsState.readMsg,
          WaitSetParameterValuesState.readMsg,
          WaitSetParameterValuesState.markAsConfigured,
          SendRebootState.readMsg, WaitRebootResponseState.readMsg,
          WaitRebootDelayState.readMsg, ErrorState.readMsg, hd] <;>
        (repeat' split) <;>
        simp_all [outCtx]
  · intro w1 w2 w3 w4 wire r st' ctx' hd hr
    simp only [readMsg] at hr
    replace hr := liftRead_ok hr
    simp only [WaitGetObjectParametersState.readMsg, hd] at hr
    (repeat' split at hr) <;> cases hr <;> simp

/-- Witness for C3 at a closed input: a `DummyInput` read in
`WaitEmptyMessageState` with a non-null desired configuration leaves it and
the build counter unchanged. -/
theorem claim_C3_witness :
    (dispatchOutCtx (readMsg envA (.waitEmptyMessage "w")
        { ctxA with desiredCfg := some cfgA } .dummyInput)).desiredCfg
      = some cfgA ∧
    (dispatchOutCtx (readMsg envA (.waitEmptyMessage "w")
        { ctxA with desiredCfg := some cfgA } .dummyInput)).buildDesiredCalls
      = ({ ctxA with desiredCfg := some cfgA } : AcsCtx).buildDesiredCalls :=
  (claim_C3_desired_cfg_built_once envA (.waitEmptyMessage "w")
    { ctxA with desiredCfg := some cfgA } .dummyInput).1 cfgA rfl

/-- C8: for every state in the file and every message, a read that is
classified not handled leaves the machine context — device store, desired
configuration and data-model presence flags — entirely unchanged. -/
theorem claim_C8_not_handled_frame (env : Env) (st : StateK) (ctx : AcsCtx)
    (m : Msg) :
    ∀ (r : AcsReadMsgResult) (st' : StateK) (ctx' : AcsCtx),
      readMsg env st ctx m = .ok (r, st', ctx') →
      r.msgHandled = false →
      ctx' = ctx := by
  intro r st' ctx' hr hf
  cases st <;> simp only [readMsg, baseReadMsg] at hr
  case getObjectParams w => cases hr
  case setParameterValues w => cases hr
  case setParameterValuesNotAdmin w => cases hr
  case waitInformMReboot w1 w2 ri =>
    obtain ⟨ri2, hres⟩ := liftReadMR_ok hr
    cases m <;> simp only [WaitInformMRebootState.readMsg] at hres <;>
      (repeat' split at hres) <;> cases hres <;> simp_all
  all_goals
    replace hr := liftRead_ok hr
  all_goals
    cases m <;>
      simp only [DisconnectedState.readMsg, UnexpectedInformState.readMsg,
        BaicellsDisconnectedState.readMsg, BaicellsRemWaitState.readMsg,
        WaitEmptyMessageState.readMsg, CheckOptionalParamsState.readMsg,
        SendGetTransientParametersState.readMsg,
        WaitGetTransientParametersState.readMsg, GetParametersState.readMsg,
        WaitGetParametersState.readMsg, WaitGetObjectParametersState.readMsg,
        DeleteObjectsState.readMsg, AddObjectsState.readMsg,
        WaitSetParameterValuesState.readMsg,
        SendRebootState.readMsg, WaitRebootResponseState.readMsg,
        WaitRebootDelayState.readMsg, ErrorState.readMsg] at hr <;>
      (repeat' split at hr) <;> cases hr <;> simp_all

/-- Witness for C8 at a closed input: an `Inform` read in
`WaitEmptyMessageState` is not handled and the context is unchanged. -/
theorem claim_C8_witness : ctxA = ctxA :=
  claim_C8_not_handled_frame envA (.waitEmptyMessage "w") ctxA (.inform [])
    ⟨false, none⟩ (.waitEmptyMessage "w") ctxA rfl rfl

end EnbAcs
